import Mathlib

/-!
Shallow embedding of the RStodoApp source (src/App.tsx and the earlier
revision src/unnamed/part_000) for verification of its specification.

The app's state is two React `useState` cells: `todos : Todo[]` and
`input : string`.  The three store operations `addTodo`, `toggleTodo`,
`deleteTodo` are embedded as pure functions on that state; `Date.now()`
is an external input, so `addTodo` takes the current clock value as a
parameter.  JavaScript renders the id with `Date.now().toString()`; the
decimal rendering of distinct numbers is injective and ids are only ever
compared for equality (`todo.id === id`), so the id is embedded as the
numeric timestamp itself.

The notification bridge (`displayNotification`, `requestUserPermission`,
`registerDeviceForMessaging`) is embedded with the outcomes of the
external SDK calls (permission status, thrown errors) supplied as
explicit inputs, and thrown JS exceptions modelled by `Except`.
-/

namespace RStodoApp

/-- The `Todo` record type of App.tsx: `{ id: string; text: string; done: boolean }`.
The `id` field holds the creation timestamp (see the module comment for
why the `Date.now().toString()` string is embedded as the number). -/
structure Todo where
  id : Nat
  text : String
  done : Bool
  deriving DecidableEq, Repr

/-- The component state: the `todos` list and the pending `input` field. -/
structure AppState where
  todos : List Todo
  input : String
  deriving DecidableEq, Repr

/-- Embedding of the JavaScript built-in `String.prototype.trim`, used by
`addTodo` as `input.trim()`: removes whitespace characters from both ends of
the string.  (Defined on the character list so it evaluates by kernel
reduction; core's `String.trim` is well-founded recursion and does not.) -/
def jsTrim (s : String) : String :=
  ⟨((s.data.dropWhile Char.isWhitespace).reverse.dropWhile Char.isWhitespace).reverse⟩

/-- Embedding of addTodo from App.tsx: if input.trim() is the empty string it
returns early; otherwise it appends { id: Date.now().toString(), text: input,
done: false } to todos and clears the input field.  Here now is the value
Date.now() returns during this invocation. -/
def addTodo (s : AppState) (now : Nat) : AppState :=
  if jsTrim s.input = "" then s
  else { todos := s.todos ++ [{ id := now, text := s.input, done := false }]
         input := "" }

/-- Embedding of toggleTodo from App.tsx, acting on the todos list:
todos.map(todo => todo.id === id ? { ...todo, done: !todo.done } : todo). -/
def toggleTodo (id : Nat) (todos : List Todo) : List Todo :=
  todos.map fun todo => if todo.id = id then { todo with done := !todo.done } else todo

/-- Embedding of deleteTodo from App.tsx, acting on the todos list:
todos.filter(todo => todo.id !== id). -/
def deleteTodo (id : Nat) (todos : List Todo) : List Todo :=
  todos.filter fun todo => todo.id ≠ id

/-- The user-driven events that mutate the component state: typing into the
text input (`onChangeText={setInput}`), pressing Add (`addTodo`, with the
clock value observed then), tapping an item (`toggleTodo`) and pressing the
delete control (`deleteTodo`). -/
inductive Op where
  | setInput (text : String)
  | add (now : Nat)
  | toggle (id : Nat)
  | delete (id : Nat)
  deriving DecidableEq, Repr

/-- One event-handler invocation. -/
def step (s : AppState) : Op → AppState
  | .setInput t => { s with input := t }
  | .add now => addTodo s now
  | .toggle i => { s with todos := toggleTodo i s.todos }
  | .delete i => { s with todos := deleteTodo i s.todos }

/-- The initial state: the empty todos list and the empty input string, the
arguments of the two useState calls. -/
def init : AppState := { todos := [], input := "" }

/-- Run a sequence of events from the initial state. -/
def run (ops : List Op) : AppState := ops.foldl step init

/-- The clock values of the `add` events of a trace. -/
def addTimes (ops : List Op) : List Nat :=
  ops.filterMap fun op => match op with
    | .add now => some now
    | _ => none

/-- The notes a trace inserts, in insertion order: for each `add` event whose
pending input trims non-empty, the note it appends. -/
def insertedNotes (s : AppState) : List Op → List Todo
  | [] => []
  | op :: rest =>
    (match op with
     | .add now =>
       if jsTrim s.input = "" then []
       else [{ id := now, text := s.input, done := false }]
     | _ => []) ++ insertedNotes (step s op) rest

/-- A note's identity apart from its mutable `done` flag. -/
def stripDone (t : Todo) : Nat × String := (t.id, t.text)

/-! ### Notification bridge

The incoming remote message carries an optional notification object with
optional title and body fields (remoteMessage.notification?.title and
remoteMessage.notification?.body in the source); an absent object or field is
the JavaScript value undefined, embedded as none. -/

/-- The optional notification payload of a Firebase remote message. -/
structure RemoteNotification where
  title : Option String
  body : Option String
  deriving DecidableEq, Repr

/-- A Firebase remote message, restricted to the fields the source reads. -/
structure RemoteMessage where
  notification : Option RemoteNotification
  deriving DecidableEq, Repr

/-- Embedding of the JavaScript expression x || d for x of type
string | undefined: undefined and the empty string are falsy, so the
default d is produced for both, and x is produced otherwise. -/
def jsOrString (x : Option String) (d : String) : String :=
  match x with
  | none => d
  | some s => if s = "" then d else s

/-- The title and body of the local notification that notifee.displayNotification
is asked to display. -/
structure DisplayedNotification where
  title : String
  body : String
  deriving DecidableEq, Repr

/-- Embedding of displayNotification from App.tsx, restricted to its observable
title/body behaviour:
title is remoteMessage.notification?.title || the fixed default title, and
body is remoteMessage.notification?.body || the fixed default body. -/
def displayNotification (remoteMessage : RemoteMessage) : DisplayedNotification :=
  { title := jsOrString (remoteMessage.notification.bind RemoteNotification.title)
      "New Notification"
    body := jsOrString (remoteMessage.notification.bind RemoteNotification.body)
      "You have a new message" }

/-- The outcome of an iOS messaging().requestPermission() call, as compared by
the source against messaging.AuthorizationStatus.AUTHORIZED and PROVISIONAL. -/
inductive AuthorizationStatus where
  | notDetermined | denied | authorized | provisional | ephemeral
  deriving DecidableEq, Repr

/-- The outcome of PermissionsAndroid.request, compared by the source against
PermissionsAndroid.RESULTS.GRANTED. -/
inductive AndroidPermissionStatus where
  | granted | denied | neverAskAgain
  deriving DecidableEq, Repr

/-- The platform the app runs on: Platform.OS together with Platform.Version
(a number) on Android.  The source only branches on ios and android. -/
inductive OS where
  | ios
  | android (version : Nat)
  | other
  deriving DecidableEq, Repr

/-- The outcomes of the external SDK calls the permission flow performs; a
thrown JavaScript exception is the error case of Except. -/
structure BridgeEnv where
  iosPermission : Except Unit AuthorizationStatus
  androidPermission : Except Unit AndroidPermissionStatus
  registerDevice : Except Unit Unit
  getToken : Except Unit String

/-- Embedding of registerDeviceForMessaging from App.tsx: it awaits
messaging().registerDeviceForRemoteMessages() and then messaging().getToken(),
logging the token; any error is caught inside the function and logged, so the
function always returns normally.  The result is the token that was logged,
or none when a step threw (and was swallowed). -/
def registerDeviceForMessaging (env : BridgeEnv) : Option String :=
  match env.registerDevice with
  | .error _ => none
  | .ok _ =>
    match env.getToken with
    | .error _ => none
    | .ok token => some token

/-- The body of the try block of requestUserPermission from App.tsx.  The
result is some r when registerDeviceForMessaging was invoked (with its result
r), none when the flow finished without invoking it, and an error when an
awaited permission request threw. -/
def requestUserPermissionBody (os : OS) (env : BridgeEnv) :
    Except Unit (Option (Option String)) :=
  match os with
  | .ios =>
    match env.iosPermission with
    | .error e => .error e
    | .ok authStatus =>
      if authStatus = .authorized ∨ authStatus = .provisional then
        .ok (some (registerDeviceForMessaging env))
      else
        .ok none
  | .android version =>
    if 33 ≤ version then
      match env.androidPermission with
      | .error e => .error e
      | .ok result =>
        if result = .granted then .ok (some (registerDeviceForMessaging env))
        else .ok none
    else
      .ok (some (registerDeviceForMessaging env))
  | .other => .ok none

/-- Embedding of requestUserPermission from App.tsx: the try body wrapped in
the catch handler, which logs the error and returns normally.  The flow as a
whole therefore never propagates an exception: the result is always ok, and
it carries some r exactly when the device-registration call was made. -/
def requestUserPermission (os : OS) (env : BridgeEnv) :
    Except Unit (Option (Option String)) :=
  match requestUserPermissionBody os env with
  | .ok r => .ok r
  | .error _ => .ok none

/-! ### Sample data used by witnesses and counterexamples -/

/-- A two-entry todo list with distinct ids. -/
def sampleTodos : List Todo :=
  [{ id := 1, text := "Buy milk", done := false },
   { id := 2, text := "Walk dog", done := true }]

/-- A todo list with a duplicated id, as produced by two adds that observe the
same Date.now() value (see dupTrace). -/
def dupTodos : List Todo :=
  [{ id := 5, text := "a", done := false },
   { id := 5, text := "b", done := false }]

/-- A trace whose two adds observe the same clock value 5. -/
def dupTrace : List Op := [.setInput "a", .add 5, .setInput "b", .add 5]

/-- A trace whose adds observe distinct clock values. -/
def freshTrace : List Op := [.setInput "x", .add 1, .setInput "y", .add 2]

/-! ### Helper lemmas about the store operations -/

theorem toggleTodo_cons (i : Nat) (t : Todo) (ts : List Todo) :
    toggleTodo i (t :: ts) =
      (if t.id = i then { t with done := !t.done } else t) :: toggleTodo i ts := rfl

theorem toggleTodo_append (i : Nat) (l1 l2 : List Todo) :
    toggleTodo i (l1 ++ l2) = toggleTodo i l1 ++ toggleTodo i l2 :=
  List.map_append _ l1 l2

theorem deleteTodo_cons (i : Nat) (t : Todo) (ts : List Todo) :
    deleteTodo i (t :: ts) =
      if t.id = i then deleteTodo i ts else t :: deleteTodo i ts := by
  by_cases h : t.id = i <;> simp [deleteTodo, List.filter_cons, h]

theorem deleteTodo_append (i : Nat) (l1 l2 : List Todo) :
    deleteTodo i (l1 ++ l2) = deleteTodo i l1 ++ deleteTodo i l2 := by
  simp [deleteTodo, List.filter_append]

theorem toggleTodo_map_id (i : Nat) (l : List Todo) :
    (toggleTodo i l).map Todo.id = l.map Todo.id := by
  induction l with
  | nil => rfl
  | cons t ts ih =>
    rw [toggleTodo_cons]
    by_cases h : t.id = i
    · rw [if_pos h, List.map_cons, List.map_cons, ih]
    · rw [if_neg h, List.map_cons, List.map_cons, ih]

theorem toggleTodo_map_stripDone (i : Nat) (l : List Todo) :
    (toggleTodo i l).map stripDone = l.map stripDone := by
  induction l with
  | nil => rfl
  | cons t ts ih =>
    rw [toggleTodo_cons]
    by_cases h : t.id = i
    · rw [if_pos h, List.map_cons, List.map_cons, ih]
      rfl
    · rw [if_neg h, List.map_cons, List.map_cons, ih]

theorem toggleTodo_not_mem (i : Nat) (l : List Todo) (h : i ∉ l.map Todo.id) :
    toggleTodo i l = l := by
  induction l with
  | nil => rfl
  | cons t ts ih =>
    rw [List.map_cons, List.mem_cons, not_or] at h
    rw [toggleTodo_cons, if_neg (Ne.symm h.1), ih h.2]

theorem deleteTodo_not_mem (i : Nat) (l : List Todo) (h : i ∉ l.map Todo.id) :
    deleteTodo i l = l := by
  induction l with
  | nil => rfl
  | cons t ts ih =>
    rw [List.map_cons, List.mem_cons, not_or] at h
    rw [deleteTodo_cons, if_neg (Ne.symm h.1), ih h.2]

theorem deleteTodo_sublist (i : Nat) (l : List Todo) :
    (deleteTodo i l).Sublist l :=
  List.filter_sublist l

theorem deleteTodo_ids_sublist (i : Nat) (l : List Todo) :
    ((deleteTodo i l).map Todo.id).Sublist (l.map Todo.id) :=
  (deleteTodo_sublist i l).map Todo.id

theorem toggleTodo_toggleTodo (i : Nat) (l : List Todo) :
    toggleTodo i (toggleTodo i l) = l := by
  induction l with
  | nil => rfl
  | cons t ts ih =>
    rw [toggleTodo_cons]
    by_cases h : t.id = i
    · rw [if_pos h, toggleTodo_cons,
        if_pos (show ({ t with done := !t.done } : Todo).id = i from h), ih]
      simp
    · rw [if_neg h, toggleTodo_cons, if_neg h, ih]

/-! ### Theorems for the claims -/

/-- C2: for every string whose trimmed form is non-empty and every current todo
list, pressing Add appends exactly one entry, carrying the (untrimmed) input
text and done = false and the timestamp-derived id, and clears the pending
input field. -/
theorem addTodo_appends (todos : List Todo) (s : String) (now : Nat)
    (h : jsTrim s ≠ "") :
    (addTodo { todos := todos, input := s } now).todos
        = todos ++ [{ id := now, text := s, done := false }] ∧
    (addTodo { todos := todos, input := s } now).todos.length = todos.length + 1 ∧
    (addTodo { todos := todos, input := s } now).input = "" := by
  refine ⟨?_, ?_, ?_⟩ <;> simp [addTodo, h]

/-- Witness for C2 at a concrete input. -/
theorem addTodo_appends_witness :
    jsTrim " Buy milk " ≠ "" ∧
    ((addTodo { todos := sampleTodos, input := " Buy milk " } 7).todos
        = sampleTodos ++ [{ id := 7, text := " Buy milk ", done := false }] ∧
     (addTodo { todos := sampleTodos, input := " Buy milk " } 7).todos.length
        = sampleTodos.length + 1 ∧
     (addTodo { todos := sampleTodos, input := " Buy milk " } 7).input = "") :=
  ⟨by decide, addTodo_appends sampleTodos " Buy milk " 7 (by decide)⟩

/-- C3: for every string whose trimmed form is empty, pressing Add leaves the
whole state (in particular the todo list) unchanged. -/
theorem addTodo_blank_noop (todos : List Todo) (s : String) (now : Nat)
    (h : jsTrim s = "") :
    addTodo { todos := todos, input := s } now = { todos := todos, input := s } := by
  rw [addTodo, if_pos h]

/-- Witness for C3 at the two inputs named by the spec: the empty string and a
string of blanks. -/
theorem addTodo_blank_noop_witness :
    addTodo { todos := sampleTodos, input := "" } 9
        = { todos := sampleTodos, input := "" } ∧
    addTodo { todos := sampleTodos, input := "   " } 9
        = { todos := sampleTodos, input := "   " } :=
  ⟨addTodo_blank_noop sampleTodos "" 9 (by decide),
   addTodo_blank_noop sampleTodos "   " 9 (by decide)⟩

/-- C9: toggling the same id twice returns the list to exactly its original
value (stated, as the claim is, for a list containing that id; the proof does
not need the hypothesis). -/
theorem toggleTodo_involution (l : List Todo) (i : Nat)
    (_h : i ∈ l.map Todo.id) :
    toggleTodo i (toggleTodo i l) = l :=
  toggleTodo_toggleTodo i l

/-- Witness for C9 at a concrete list and id. -/
theorem toggleTodo_involution_witness :
    toggleTodo 2 (toggleTodo 2 sampleTodos) = sampleTodos :=
  toggleTodo_involution sampleTodos 2 (by decide)

/-- C10: delete is idempotent, and a single delete leaves no entry with the
deleted id in the result. -/
theorem deleteTodo_idempotent_removes_all (l : List Todo) (i : Nat) :
    deleteTodo i (deleteTodo i l) = deleteTodo i l ∧
    ∀ t ∈ deleteTodo i l, t.id ≠ i := by
  constructor
  · induction l with
    | nil => rfl
    | cons t ts ih =>
      rw [deleteTodo_cons]
      by_cases h : t.id = i
      · rw [if_pos h]; exact ih
      · rw [if_neg h, deleteTodo_cons, if_neg h, ih]
  · intro t ht
    have := List.of_mem_filter ht
    simpa using this

/-- C4 counterexample: the duplicate-id list reached by dupTrace (two adds that
observe the same clock value) after toggling id 5 differs from both lists a
single flip could produce, because the source maps over ALL entries matching
the id: with duplicates it flips more than one entry, refuting "flips the done
flag of exactly that entry and leaves every other entry unchanged" as stated
for every todo list. -/
theorem toggleTodo_flips_counterexample :
    (run dupTrace).todos = dupTodos ∧
    (5 : Nat) ∈ dupTodos.map Todo.id ∧
    toggleTodo 5 dupTodos ≠
      [{ id := 5, text := "a", done := true }, { id := 5, text := "b", done := false }] ∧
    toggleTodo 5 dupTodos ≠
      [{ id := 5, text := "a", done := false }, { id := 5, text := "b", done := true }] := by
  refine ⟨by decide, by decide, by decide, by decide⟩

/-- C4 amended: on a todo list whose ids are pairwise distinct, toggling a
present id flips exactly the matching entry in place (every other entry and
the order unchanged), and toggling an absent id is a no-op (the no-op needs no
distinctness). -/
theorem toggleTodo_flips_exactly_one (l : List Todo) (i : Nat) :
    (i ∉ l.map Todo.id → toggleTodo i l = l) ∧
    ((l.map Todo.id).Nodup →
      ∀ l1 t l2, l = l1 ++ t :: l2 → t.id = i →
        toggleTodo i l = l1 ++ { t with done := !t.done } :: l2) := by
  refine ⟨toggleTodo_not_mem i l, ?_⟩
  intro hnd l1 t l2 hl ht
  subst hl; subst ht
  rw [List.map_append, List.map_cons, List.nodup_middle, List.nodup_cons] at hnd
  have h1 : t.id ∉ l1.map Todo.id := fun hm => hnd.1 (List.mem_append.mpr (Or.inl hm))
  have h2 : t.id ∉ l2.map Todo.id := fun hm => hnd.1 (List.mem_append.mpr (Or.inr hm))
  rw [toggleTodo_append, toggleTodo_cons, if_pos rfl,
    toggleTodo_not_mem _ _ h1, toggleTodo_not_mem _ _ h2]

/-- Witness for the amended C4 at concrete inputs: an absent id is a no-op, and
a present id flips exactly its entry. -/
theorem toggleTodo_flips_exactly_one_witness :
    toggleTodo 3 sampleTodos = sampleTodos ∧
    toggleTodo 2 sampleTodos =
      [{ id := 1, text := "Buy milk", done := false },
       { id := 2, text := "Walk dog", done := false }] :=
  ⟨(toggleTodo_flips_exactly_one sampleTodos 3).1 (by decide),
   (toggleTodo_flips_exactly_one sampleTodos 2).2 (by decide)
     [{ id := 1, text := "Buy milk", done := false }]
     { id := 2, text := "Walk dog", done := true } [] rfl rfl⟩

/-- C5 counterexample: in the duplicate-id list reached by dupTrace, deleting
the present id 5 removes BOTH matching entries (the source filters every
match), not exactly one: the resulting length is 0, not length - 1. -/
theorem deleteTodo_removes_counterexample :
    (run dupTrace).todos = dupTodos ∧
    (5 : Nat) ∈ dupTodos.map Todo.id ∧
    dupTodos.length = 2 ∧
    deleteTodo 5 dupTodos = [] ∧
    (deleteTodo 5 dupTodos).length ≠ dupTodos.length - 1 := by
  refine ⟨by decide, by decide, by decide, by decide, by decide⟩

/-- C5 amended: delete never increases the length; an absent id is a no-op;
and on a todo list whose ids are pairwise distinct, deleting a present id
removes exactly the matching entry, leaving the rest in order. -/
theorem deleteTodo_removes_exactly_one (l : List Todo) (i : Nat) :
    (deleteTodo i l).length ≤ l.length ∧
    (i ∉ l.map Todo.id → deleteTodo i l = l) ∧
    ((l.map Todo.id).Nodup →
      ∀ l1 t l2, l = l1 ++ t :: l2 → t.id = i → deleteTodo i l = l1 ++ l2) := by
  refine ⟨List.length_filter_le _ _, deleteTodo_not_mem i l, ?_⟩
  intro hnd l1 t l2 hl ht
  subst hl; subst ht
  rw [List.map_append, List.map_cons, List.nodup_middle, List.nodup_cons] at hnd
  have h1 : t.id ∉ l1.map Todo.id := fun hm => hnd.1 (List.mem_append.mpr (Or.inl hm))
  have h2 : t.id ∉ l2.map Todo.id := fun hm => hnd.1 (List.mem_append.mpr (Or.inr hm))
  rw [deleteTodo_append, deleteTodo_cons, if_pos rfl,
    deleteTodo_not_mem _ _ h1, deleteTodo_not_mem _ _ h2]

/-- Unfolding lemmas for step on each event. -/
theorem step_setInput (s : AppState) (t : String) :
    step s (Op.setInput t) = { s with input := t } := rfl

theorem step_add (s : AppState) (now : Nat) :
    step s (Op.add now) = addTodo s now := rfl

theorem step_toggle (s : AppState) (i : Nat) :
    step s (Op.toggle i) = { s with todos := toggleTodo i s.todos } := rfl

theorem step_delete (s : AppState) (i : Nat) :
    step s (Op.delete i) = { s with todos := deleteTodo i s.todos } := rfl

/-- Unfolding lemmas for the add timestamps of a trace. -/
theorem addTimes_cons_setInput (t : String) (rest : List Op) :
    addTimes (Op.setInput t :: rest) = addTimes rest := rfl

theorem addTimes_cons_add (n : Nat) (rest : List Op) :
    addTimes (Op.add n :: rest) = n :: addTimes rest := rfl

theorem addTimes_cons_toggle (i : Nat) (rest : List Op) :
    addTimes (Op.toggle i :: rest) = addTimes rest := rfl

theorem addTimes_cons_delete (i : Nat) (rest : List Op) :
    addTimes (Op.delete i :: rest) = addTimes rest := rfl

/-- Generalisation of C1 to an arbitrary start state: folding any trace whose
add timestamps are pairwise distinct and all fresh for the start state
preserves distinctness of the ids. -/
theorem foldl_ids_nodup (ops : List Op) (s : AppState)
    (hs : (s.todos.map Todo.id).Nodup)
    (hfresh : ∀ n ∈ addTimes ops, n ∉ s.todos.map Todo.id)
    (hops : (addTimes ops).Nodup) :
    (((ops.foldl step s).todos).map Todo.id).Nodup := by
  induction ops generalizing s with
  | nil => exact hs
  | cons op rest ih =>
    rw [List.foldl_cons]
    cases op with
    | setInput t =>
      exact ih { s with input := t } hs hfresh hops
    | toggle i =>
      refine ih _ ?_ ?_ hops
      · rw [step_toggle]
        exact (toggleTodo_map_id i s.todos).symm ▸ hs
      · intro n hn
        rw [step_toggle]
        show n ∉ (toggleTodo i s.todos).map Todo.id
        rw [toggleTodo_map_id]
        exact hfresh n hn
    | delete i =>
      refine ih _ ?_ ?_ hops
      · rw [step_delete]
        exact hs.sublist (deleteTodo_ids_sublist i s.todos)
      · intro n hn hmem
        rw [step_delete] at hmem
        exact hfresh n hn ((deleteTodo_ids_sublist i s.todos).subset hmem)
    | add now =>
      rw [addTimes_cons_add, List.nodup_cons] at hops
      by_cases hb : jsTrim s.input = ""
      · have hstep : step s (Op.add now) = s := by
          rw [step_add, addTodo, if_pos hb]
        rw [hstep]
        exact ih s hs
          (fun n hn => hfresh n (List.mem_cons_of_mem _ hn)) hops.2
      · have hstep : step s (Op.add now) =
            { todos := s.todos ++ [{ id := now, text := s.input, done := false }]
              input := "" } := by
          rw [step_add, addTodo, if_neg hb]
        rw [hstep]
        refine ih _ ?_ ?_ hops.2
        · show ((s.todos ++ [({ id := now, text := s.input, done := false } : Todo)]).map
            Todo.id).Nodup
          rw [List.map_append, List.map_cons, List.map_nil, List.nodup_middle,
            List.append_nil, List.nodup_cons]
          exact ⟨hfresh now (List.mem_cons_self _ _), hs⟩
        · intro n hn
          show n ∉ (s.todos ++ [({ id := now, text := s.input, done := false } : Todo)]).map
            Todo.id
          rw [List.map_append, List.map_cons, List.map_nil, List.mem_append,
            not_or]
          refine ⟨hfresh n (List.mem_cons_of_mem _ hn), ?_⟩
          intro hmem
          rw [List.mem_singleton] at hmem
          have hnn : n = now := hmem
          exact hops.1 (hnn ▸ hn)

/-- C1 amended: every state reached from the empty list by a trace whose add
operations observe pairwise-distinct Date.now() values has pairwise-distinct
ids; two adds observing the same clock value produce a duplicate id (see the
counterexample). -/
theorem run_ids_nodup_of_distinct_times (ops : List Op)
    (h : (addTimes ops).Nodup) :
    (((run ops).todos).map Todo.id).Nodup :=
  foldl_ids_nodup ops init (by simp [init]) (by simp [init]) h

/-- Witness for the amended C1 at a concrete trace. -/
theorem run_ids_nodup_witness :
    (addTimes freshTrace).Nodup ∧ (((run freshTrace).todos).map Todo.id).Nodup :=
  ⟨by decide, run_ids_nodup_of_distinct_times freshTrace (by decide)⟩

/-- C1 counterexample: the reachable state produced by dupTrace, whose two adds
observe the same Date.now() value 5 (the clock has millisecond resolution and
is not strictly increasing across events), holds two notes with the same id. -/
theorem run_ids_nodup_counterexample :
    (run dupTrace).todos.map Todo.id = [5, 5] ∧
    ¬ ((run dupTrace).todos.map Todo.id).Nodup := by
  refine ⟨by decide, by decide⟩

/-- Unfolding lemmas for the inserted-notes log of a trace. -/
theorem insertedNotes_nil (s : AppState) : insertedNotes s [] = [] := rfl

theorem insertedNotes_setInput (s : AppState) (t : String) (rest : List Op) :
    insertedNotes s (Op.setInput t :: rest) =
      insertedNotes { s with input := t } rest := rfl

theorem insertedNotes_toggle (s : AppState) (i : Nat) (rest : List Op) :
    insertedNotes s (Op.toggle i :: rest) =
      insertedNotes { s with todos := toggleTodo i s.todos } rest := rfl

theorem insertedNotes_delete (s : AppState) (i : Nat) (rest : List Op) :
    insertedNotes s (Op.delete i :: rest) =
      insertedNotes { s with todos := deleteTodo i s.todos } rest := rfl

theorem insertedNotes_add (s : AppState) (now : Nat) (rest : List Op) :
    insertedNotes s (Op.add now :: rest) =
      (if jsTrim s.input = ""
       then []
       else [{ id := now, text := s.input, done := false }]) ++
      insertedNotes (addTodo s now) rest := rfl

/-- Generalisation of C6 to an arbitrary start state: after folding any trace,
the surviving notes (ignoring the mutable done flag) form a subsequence of the
start notes followed by the trace's insertions, in order. -/
theorem foldl_strip_sublist (ops : List Op) (s : AppState) :
    ((((ops.foldl step s).todos).map stripDone)).Sublist
      ((s.todos.map stripDone) ++ ((insertedNotes s ops).map stripDone)) := by
  induction ops generalizing s with
  | nil =>
    rw [List.foldl_nil, insertedNotes_nil, List.map_nil, List.append_nil]
  | cons op rest ih =>
    rw [List.foldl_cons]
    refine (ih (step s op)).trans ?_
    cases op with
    | setInput t =>
      rw [insertedNotes_setInput]
      exact List.Sublist.refl _
    | toggle i =>
      rw [insertedNotes_toggle, step_toggle]
      show List.Sublist ((toggleTodo i s.todos).map stripDone ++ _) _
      rw [toggleTodo_map_stripDone]
    | delete i =>
      rw [insertedNotes_delete, step_delete]
      show List.Sublist ((deleteTodo i s.todos).map stripDone ++ _) _
      exact ((deleteTodo_sublist i s.todos).map stripDone).append
        (List.Sublist.refl _)
    | add now =>
      rw [insertedNotes_add, step_add, addTodo]
      by_cases hb : jsTrim s.input = ""
      · rw [if_pos hb, if_pos hb, List.nil_append]
      · rw [if_neg hb, if_neg hb]
        show List.Sublist
          ((s.todos ++ [({ id := now, text := s.input, done := false } : Todo)]).map
            stripDone ++ _) _
        rw [List.map_append, List.map_cons, List.append_assoc, List.map_nil]
        exact List.Sublist.refl _

/-- C6: add only ever appends at the end (or leaves the list unchanged on a
blank input), and after any sequence of events starting from the empty state
the surviving notes, identified by id and text, form a subsequence of the
notes inserted by the trace in insertion order: the display order is the
insertion order. -/
theorem display_order_insertion (ops : List Op) :
    (∀ (s : AppState) (now : Nat),
        (addTodo s now).todos = s.todos ∨
        (addTodo s now).todos =
          s.todos ++ [{ id := now, text := s.input, done := false }]) ∧
    (((run ops).todos).map stripDone).Sublist
      ((insertedNotes init ops).map stripDone) := by
  constructor
  · intro s now
    by_cases hb : jsTrim s.input = ""
    · left; rw [addTodo, if_pos hb]
    · right; rw [addTodo, if_neg hb]
  · have h := foldl_strip_sublist ops init
    rw [show init.todos = [] from rfl, List.map_nil, List.nil_append] at h
    exact h

/-- Witness for the amended C5 at concrete inputs. -/
theorem deleteTodo_removes_exactly_one_witness :
    (deleteTodo 2 sampleTodos).length ≤ sampleTodos.length ∧
    deleteTodo 3 sampleTodos = sampleTodos ∧
    deleteTodo 2 sampleTodos = [{ id := 1, text := "Buy milk", done := false }] :=
  ⟨(deleteTodo_removes_exactly_one sampleTodos 2).1,
   (deleteTodo_removes_exactly_one sampleTodos 3).2.1 (by decide),
   (deleteTodo_removes_exactly_one sampleTodos 2).2.2 (by decide)
     [{ id := 1, text := "Buy milk", done := false }]
     { id := 2, text := "Walk dog", done := true } [] rfl rfl⟩

/-- C7 counterexample: a remote message that PROVIDES both fields, the title
being the empty string, is displayed with the fallback title, not the provided
title verbatim: the JavaScript || operator treats the provided empty string as
falsy. -/
theorem displayNotification_counterexample :
    ((⟨some ⟨some "", some "hi"⟩⟩ : RemoteMessage).notification.bind
        RemoteNotification.title) = some "" ∧
    ((⟨some ⟨some "", some "hi"⟩⟩ : RemoteMessage).notification.bind
        RemoteNotification.body) = some "hi" ∧
    (displayNotification ⟨some ⟨some "", some "hi"⟩⟩).title = "New Notification" ∧
    (displayNotification ⟨some ⟨some "", some "hi"⟩⟩).title ≠ "" := by
  refine ⟨rfl, rfl, rfl, by decide⟩

/-- C7 amended: each displayed field independently falls back to its fixed
default when the message omits the field or provides it as the empty string,
and is the provided value verbatim when the field is present and non-empty. -/
theorem displayNotification_fallback_verbatim (rm : RemoteMessage) :
    ((rm.notification.bind RemoteNotification.title = none ∨
        rm.notification.bind RemoteNotification.title = some "") →
      (displayNotification rm).title = "New Notification") ∧
    ((rm.notification.bind RemoteNotification.body = none ∨
        rm.notification.bind RemoteNotification.body = some "") →
      (displayNotification rm).body = "You have a new message") ∧
    (∀ t, rm.notification.bind RemoteNotification.title = some t → t ≠ "" →
      (displayNotification rm).title = t) ∧
    (∀ b, rm.notification.bind RemoteNotification.body = some b → b ≠ "" →
      (displayNotification rm).body = b) := by
  refine ⟨?_, ?_, ?_, ?_⟩
  · rintro (h | h) <;> simp [displayNotification, jsOrString, h]
  · rintro (h | h) <;> simp [displayNotification, jsOrString, h]
  · intro t h hne
    simp [displayNotification, jsOrString, h, hne]
  · intro b h hne
    simp [displayNotification, jsOrString, h, hne]

/-- Witness for the amended C7: a message with no notification payload falls
back on both fields; a message with non-empty title and body is displayed
verbatim. -/
theorem displayNotification_fallback_verbatim_witness :
    (displayNotification ⟨none⟩).title = "New Notification" ∧
    (displayNotification ⟨none⟩).body = "You have a new message" ∧
    (displayNotification ⟨some ⟨some "Hello", some "World"⟩⟩).title = "Hello" ∧
    (displayNotification ⟨some ⟨some "Hello", some "World"⟩⟩).body = "World" :=
  ⟨(displayNotification_fallback_verbatim ⟨none⟩).1 (Or.inl rfl),
   (displayNotification_fallback_verbatim ⟨none⟩).2.1 (Or.inl rfl),
   (displayNotification_fallback_verbatim ⟨some ⟨some "Hello", some "World"⟩⟩).2.2.1
     "Hello" rfl (by decide),
   (displayNotification_fallback_verbatim ⟨some ⟨some "Hello", some "World"⟩⟩).2.2.2
     "World" rfl (by decide)⟩

/-- C8: whenever permission is denied (iOS status neither authorized nor
provisional, or Android API 33+ runtime permission not granted) or the
permission request itself throws, the flow returns normally (ok: the thrown
error is caught and logged, never propagated) and the device-registration
call is never made (none). -/
theorem requestUserPermission_denied_no_registration (os : OS) (env : BridgeEnv)
    (h : (os = .ios ∧ (env.iosPermission = .error () ∨
            ∃ st, env.iosPermission = .ok st ∧
              st ≠ .authorized ∧ st ≠ .provisional)) ∨
         (∃ v, os = .android v ∧ 33 ≤ v ∧
            (env.androidPermission = .error () ∨
             ∃ g, env.androidPermission = .ok g ∧ g ≠ .granted))) :
    requestUserPermission os env = .ok none := by
  rcases h with ⟨hos, hp⟩ | ⟨v, hos, hv, hp⟩
  · subst hos
    rcases hp with he | ⟨st, hok, h1, h2⟩
    · simp [requestUserPermission, requestUserPermissionBody, he]
    · simp [requestUserPermission, requestUserPermissionBody, hok, h1, h2]
  · subst hos
    rcases hp with he | ⟨g, hok, hg⟩
    · simp [requestUserPermission, requestUserPermissionBody, hv, he]
    · simp [requestUserPermission, requestUserPermissionBody, hv, hok, hg]

/-- Witness for C8: an iOS run whose permission request answers denied, and an
Android 33 run whose runtime permission request throws, both return ok with no
registration call, even though registration itself would have succeeded. -/
theorem requestUserPermission_denied_witness :
    requestUserPermission .ios
      { iosPermission := .ok .denied, androidPermission := .ok .granted,
        registerDevice := .ok (), getToken := .ok "token-a" } = .ok none ∧
    requestUserPermission (.android 33)
      { iosPermission := .ok .authorized, androidPermission := .error (),
        registerDevice := .ok (), getToken := .ok "token-b" } = .ok none :=
  ⟨requestUserPermission_denied_no_registration _ _
     (Or.inl ⟨rfl, Or.inr ⟨.denied, rfl, by decide, by decide⟩⟩),
   requestUserPermission_denied_no_registration _ _
     (Or.inr ⟨33, rfl, by decide, Or.inl rfl⟩)⟩

end RStodoApp
